import Mathlib

/-!
Shallow embedding of the tracking and violation-detection core of the
AI-Traffic-Violation-Detector repository (src/tracking.py, src/violations.py),
together with proofs about the embedded functions.

Conventions used by the embedding:
* Python dicts keyed by actor id are association lists; a write conses a new
  entry at the head and `dictFind` returns the most recent write.
* `datetime` values are rational numbers of seconds; `total_seconds()` of a
  difference of datetimes is plain subtraction.
* `random.random()` draws are an explicit input: a stream `ℕ → ℚ` together
  with the index of the next draw, threaded exactly where the source calls
  `random.random()`.
* Every speed the source computes has the exact form `c * Real.sqrt r` with
  `c r : ℚ` (`c` collects the `0.1` scale, the `3.6` unit conversion and the
  division by elapsed time; `r` is the squared pixel displacement).
  `SpeedVal` stores the pair `(c, r)`, `SpeedVal.val` interprets it as the
  real number, and `SpeedVal.gtQ` decides a comparison against a rational
  threshold exactly (justified by `SpeedVal.gtQ_iff`).
-/

/-- Bounding box `(x1, y1, x2, y2)` in pixel coordinates. -/
structure BBox where
  x1 : ℤ
  y1 : ℤ
  x2 : ℤ
  y2 : ℤ
  deriving DecidableEq

/-- A per-frame detection dict `{'bbox', 'class_id', 'confidence'}` as produced
by `ObjectDetector.detect_objects`; `class_id` is `none` when the key is
absent (`dict.get('class_id')` then yields `None`). -/
structure Detection where
  bbox : BBox
  class_id : Option ℤ := none
  confidence : ℚ := 1
  deriving DecidableEq

/-- Centroid `((bbox[0] + bbox[2]) // 2, (bbox[1] + bbox[3]) // 2)`: Python `//` is
floor division, hence `Int.fdiv`. -/
def centroidOf (b : BBox) : ℤ × ℤ :=
  (Int.fdiv (b.x1 + b.x2) 2, Int.fdiv (b.y1 + b.y2) 2)

/-- A tracked-object dict emitted by the trackers.  `on_motorcycle` models the
optional `'on_motorcycle'` key that `detect_helmetless_riding` reads with
default `True`; the trackers never set it (`none`). -/
structure TrackedObject where
  id : ℕ
  bbox : BBox
  centroid : ℤ × ℤ
  original_detection : Detection
  on_motorcycle : Option Bool := none
  deriving DecidableEq

/-- State of a `VehicleTracker` instance: the `tracked_vehicles` dict (which
`update` never reads or writes) and the `next_id` counter. -/
structure VehicleTrackerState where
  tracked_vehicles : List (ℕ × TrackedObject) := []
  next_id : ℕ := 0
  deriving DecidableEq

/-- State of a `RiderTracker` instance. -/
structure RiderTrackerState where
  tracked_riders : List (ℕ × TrackedObject) := []
  next_id : ℕ := 0
  deriving DecidableEq

/-- The method `VehicleTracker.update(detections, frame)`: the source increments
`self.next_id` before appending, so the detections receive ids
`next_id + 1, next_id + 2, ...` in input order.  The unused `frame` argument
is omitted. -/
def VehicleTracker.update : List Detection → VehicleTrackerState →
    List TrackedObject × VehicleTrackerState
  | [], st => ([], st)
  | det :: rest, st =>
    let nid := st.next_id + 1
    let obj : TrackedObject :=
      { id := nid, bbox := det.bbox, centroid := centroidOf det.bbox,
        original_detection := det }
    let r := VehicleTracker.update rest { st with next_id := nid }
    (obj :: r.1, r.2)

/-- The method `RiderTracker.update(detections, frame)`, textually the same loop as
`VehicleTracker.update`. -/
def RiderTracker.update : List Detection → RiderTrackerState →
    List TrackedObject × RiderTrackerState
  | [], st => ([], st)
  | det :: rest, st =>
    let nid := st.next_id + 1
    let obj : TrackedObject :=
      { id := nid, bbox := det.bbox, centroid := centroidOf det.bbox,
        original_detection := det }
    let r := RiderTracker.update rest { st with next_id := nid }
    (obj :: r.1, r.2)

/-- A whole run of a `VehicleTracker` instance: one `update` call per frame,
collecting each frame's output. -/
def VehicleTracker.runUpdates : List (List Detection) → VehicleTrackerState →
    List (List TrackedObject) × VehicleTrackerState
  | [], st => ([], st)
  | dets :: rest, st =>
    let r := VehicleTracker.update dets st
    let rr := VehicleTracker.runUpdates rest r.2
    (r.1 :: rr.1, rr.2)

/-- Association-list lookup standing in for Python dict indexing / `in`. -/
def dictFind {α : Type} (k : ℕ) : List (ℕ × α) → Option α
  | [] => none
  | e :: rest => if k = e.1 then some e.2 else dictFind k rest

/-- Exact representation of a floating-point speed computed by the source:
the real number `coeff * Real.sqrt radicand`. -/
structure SpeedVal where
  coeff : ℚ
  radicand : ℚ
  deriving DecidableEq

/-- The real number a `SpeedVal` denotes. -/
noncomputable def SpeedVal.val (s : SpeedVal) : ℝ :=
  (s.coeff : ℝ) * Real.sqrt (s.radicand : ℝ)

/-- The literal `0` the source returns when it has no measurement. -/
def SpeedVal.zero : SpeedVal := ⟨0, 0⟩

/-- Exact decision of `q < s.val` for speeds with nonnegative components
(see `SpeedVal.gtQ_iff`); this is the comparison `speed > q` of the source. -/
def SpeedVal.gtQ (s : SpeedVal) (q : ℚ) : Bool :=
  decide (q < 0) || decide (q ^ 2 < s.coeff ^ 2 * s.radicand)

/-- Squared Euclidean distance between two pixel points; the source's
`np.linalg.norm(a - b)` is `Real.sqrt` of this. -/
def sqDist (p q : ℤ × ℤ) : ℤ := (p.1 - q.1) ^ 2 + (p.2 - q.2) ^ 2

/-- The Euclidean distance `np.linalg.norm` computes between two pixel
points. -/
noncomputable def euclideanDist (p q : ℤ × ℤ) : ℝ :=
  Real.sqrt ((sqDist p q : ℤ) : ℝ)

/-- State of `SpeedEstimator`: the `previous_positions` and `previous_times`
dicts.  They are always written together, so in every reachable state they
hold exactly the same keys. -/
structure SpeedEstimatorState where
  previous_positions : List (ℕ × (ℤ × ℤ)) := []
  previous_times : List (ℕ × ℚ) := []
  deriving DecidableEq

/-- The two dict writes at the end of `estimate_speed` (reached only on the
fall-through path). -/
def SpeedEstimator.record (vehicle_id : ℕ) (current_pos : ℤ × ℤ)
    (current_time : ℚ) (st : SpeedEstimatorState) : SpeedEstimatorState :=
  { previous_positions := (vehicle_id, current_pos) :: st.previous_positions,
    previous_times := (vehicle_id, current_time) :: st.previous_times }

/-- The method `SpeedEstimator.estimate_speed(vehicle_id, current_pos, current_time)`.
The source tests `vehicle_id in self.previous_positions` and then indexes
`self.previous_times[vehicle_id]`; since both dicts are always written
together the mixed `some`/`none` case is unreachable and is mapped to the
fall-through path.  When a positive-elapsed-time measurement is made the
source returns early, WITHOUT executing the two dict writes; the writes run
only on the fall-through path (unseen id, or elapsed time `≤ 0`). -/
def SpeedEstimator.estimate_speed (vehicle_id : ℕ) (current_pos : ℤ × ℤ)
    (current_time : ℚ) (st : SpeedEstimatorState) :
    SpeedVal × SpeedEstimatorState :=
  match dictFind vehicle_id st.previous_positions,
        dictFind vehicle_id st.previous_times with
  | some prev_pos, some prev_time =>
    let time_diff := current_time - prev_time
    if 0 < time_diff then
      ({ coeff := 1 / 10 / time_diff * (36 / 10),
         radicand := ((sqDist current_pos prev_pos : ℤ) : ℚ) }, st)
    else
      (SpeedVal.zero, SpeedEstimator.record vehicle_id current_pos current_time st)
  | _, _ =>
    (SpeedVal.zero, SpeedEstimator.record vehicle_id current_pos current_time st)

/-- The configuration object handed to `ViolationDetector`; the values in
`src/config.py` and `main.TrafficViolationDetector._load_config` are the
defaults (`getattr` fallbacks are 60 and 2, but the attributes are present). -/
structure Config where
  OVERSPEED_THRESHOLD : ℚ := 60
  TRIPLE_RIDING_MAX_PERSONS : ℕ := 3
  deriving DecidableEq

/-- A `{'type': 'signal_jump', ...}` violation dict. -/
structure SignalJumpEvent where
  vtype : String := "signal_jump"
  vehicle_id : ℕ
  timestamp : ℚ
  evidence : BBox
  deriving DecidableEq

/-- A `{'type': 'helmetless_riding', ...}` violation dict. -/
structure HelmetlessEvent where
  vtype : String := "helmetless_riding"
  rider_id : ℕ
  timestamp : ℚ
  evidence : BBox
  deriving DecidableEq

/-- A `{'type': 'overspeeding', ...}` violation dict. -/
structure OverspeedEvent where
  vtype : String := "overspeeding"
  vehicle_id : ℕ
  speed : SpeedVal
  timestamp : ℚ
  evidence : BBox
  deriving DecidableEq

/-- A `{'type': 'wrong_lane', ...}` violation dict. -/
structure WrongLaneEvent where
  vtype : String := "wrong_lane"
  vehicle_id : ℕ
  timestamp : ℚ
  evidence : BBox
  deriving DecidableEq

/-- A `{'type': 'triple_riding', ...}` violation dict. -/
structure TripleRidingEvent where
  vtype : String := "triple_riding"
  vehicle_id : ℕ
  rider_count : ℕ
  timestamp : ℚ
  evidence : BBox
  deriving DecidableEq

/-- A `{'person_id', 'helmet_detected'}` dict from `HelmetDetector`. -/
structure HelmetDetection where
  person_id : ℕ
  helmet_detected : Bool
  deriving DecidableEq

/-- Placeholder `ViolationDetector._is_red_light`: unconditionally `True` (placeholder in
the source). -/
def ViolationDetector.is_red_light (_traffic_light_bbox : BBox) : Bool := true

/-- Placeholder `ViolationDetector._is_in_correct_lane`: unconditionally `True`
(placeholder in the source). -/
def ViolationDetector.is_in_correct_lane (_centroid : ℤ × ℤ)
    (_lane_lines : List ((ℤ × ℤ) × (ℤ × ℤ))) : Bool := true

/-- The method `ViolationDetector.detect_signal_jump`.  `now` is the frame's
`datetime.now()` reading; `rand`/`k` are the `random.random()` stream and the
index of the next draw, consumed exactly where the source draws. -/
def ViolationDetector.detect_signal_jump (vehicle_tracks : List TrackedObject)
    (traffic_light_bbox : Option BBox) (stop_line_y : ℤ) (now : ℚ)
    (rand : ℕ → ℚ) (k : ℕ) : List SignalJumpEvent × ℕ :=
  match vehicle_tracks with
  | [] => ([], k)
  | vehicle :: rest =>
    let vehicle_y := vehicle.centroid.2
    match traffic_light_bbox with
    | some tl =>
      if ViolationDetector.is_red_light tl then
        if |vehicle_y - stop_line_y| < 50 then
          let r := ViolationDetector.detect_signal_jump rest traffic_light_bbox
            stop_line_y now rand (k + 1)
          if rand k < 3 / 10 then
            ({ vehicle_id := vehicle.id, timestamp := now,
               evidence := vehicle.bbox } :: r.1, r.2)
          else r
        else
          ViolationDetector.detect_signal_jump rest traffic_light_bbox
            stop_line_y now rand k
      else
        ViolationDetector.detect_signal_jump rest traffic_light_bbox
          stop_line_y now rand k
    | none =>
      ViolationDetector.detect_signal_jump rest traffic_light_bbox
        stop_line_y now rand k

/-- The per-rider loop of `detect_helmetless_riding`: the emitted events
depend only on the `'on_motorcycle'` default and the random draws. -/
def ViolationDetector.helmetless_loop (rider_tracks : List TrackedObject)
    (now : ℚ) (rand : ℕ → ℚ) (k : ℕ) : List HelmetlessEvent × ℕ :=
  match rider_tracks with
  | [] => ([], k)
  | rider :: rest =>
    if rider.on_motorcycle.getD true then
      let r := ViolationDetector.helmetless_loop rest now rand (k + 1)
      if rand k < 6 / 10 then
        ({ rider_id := rider.id, timestamp := now,
           evidence := rider.bbox } :: r.1, r.2)
      else r
    else ViolationDetector.helmetless_loop rest now rand k

/-- The method `ViolationDetector.detect_helmetless_riding`.  The source computes
`helmet_person_ids` from `helmet_detections` and then never uses it; the
loop fires on `random.random() < 0.6` alone.  The unused computation is kept
here so the embedding's shape matches the source. -/
def ViolationDetector.detect_helmetless_riding
    (rider_tracks : List TrackedObject)
    (helmet_detections : List HelmetDetection) (now : ℚ)
    (rand : ℕ → ℚ) (k : ℕ) : List HelmetlessEvent × ℕ :=
  let helmet_person_ids :=
    (helmet_detections.filter (fun h => h.helmet_detected)).map
      (fun h => h.person_id)
  ViolationDetector.helmetless_loop rider_tracks now rand k

/-- The method `ViolationDetector.detect_overspeeding`: per vehicle, ask the (mutable)
`SpeedEstimator` for a speed and emit an event when
`speed > threshold and speed > 5`; the estimator state is threaded through
the loop. -/
def ViolationDetector.detect_overspeeding (cfg : Config)
    (vehicle_tracks : List TrackedObject) (frame_time : ℚ)
    (est : SpeedEstimatorState) (now : ℚ) :
    List OverspeedEvent × SpeedEstimatorState :=
  match vehicle_tracks with
  | [] => ([], est)
  | vehicle :: rest =>
    let sp := SpeedEstimator.estimate_speed vehicle.id vehicle.centroid
      frame_time est
    let r := ViolationDetector.detect_overspeeding cfg rest frame_time sp.2 now
    if sp.1.gtQ cfg.OVERSPEED_THRESHOLD && sp.1.gtQ 5 then
      ({ vehicle_id := vehicle.id, speed := sp.1, timestamp := now,
         evidence := vehicle.bbox } :: r.1, r.2)
    else r

/-- The method `ViolationDetector.detect_wrong_lane`: fires only when lane lines are
supplied and `_is_in_correct_lane` is false — never, given the placeholder. -/
def ViolationDetector.detect_wrong_lane (vehicle_tracks : List TrackedObject)
    (lane_lines : List ((ℤ × ℤ) × (ℤ × ℤ))) (now : ℚ) : List WrongLaneEvent :=
  match vehicle_tracks with
  | [] => []
  | vehicle :: rest =>
    if !lane_lines.isEmpty &&
        !ViolationDetector.is_in_correct_lane vehicle.centroid lane_lines then
      { vehicle_id := vehicle.id, timestamp := now, evidence := vehicle.bbox }
        :: ViolationDetector.detect_wrong_lane rest lane_lines now
    else ViolationDetector.detect_wrong_lane rest lane_lines now

/-- The method `ViolationDetector._count_riders_near_vehicle`: riders whose centroid is
at Euclidean distance `< 100` pixels from the vehicle centroid; for integer
pixel coordinates `np.linalg.norm(d) < 100` is exactly `sqDist < 10000`
(see `sqDist_lt_iff_dist_lt`). -/
def ViolationDetector.count_riders_near_vehicle (vehicle : TrackedObject)
    (rider_tracks : List TrackedObject) : ℕ :=
  (rider_tracks.filter
    (fun rider => decide (sqDist vehicle.centroid rider.centroid < 10000))).length

/-- The method `ViolationDetector.detect_triple_riding`: for each motorcycle-class
vehicle (`original_detection['class_id'] == 3`), count nearby riders and emit
one event when the count strictly exceeds `TRIPLE_RIDING_MAX_PERSONS`. -/
def ViolationDetector.detect_triple_riding (cfg : Config)
    (vehicle_tracks rider_tracks : List TrackedObject) (now : ℚ) :
    List TripleRidingEvent :=
  match vehicle_tracks with
  | [] => []
  | vehicle :: rest =>
    if vehicle.original_detection.class_id = some 3 then
      let riders_near_vehicle :=
        ViolationDetector.count_riders_near_vehicle vehicle rider_tracks
      if cfg.TRIPLE_RIDING_MAX_PERSONS < riders_near_vehicle then
        { vehicle_id := vehicle.id, rider_count := riders_near_vehicle,
          timestamp := now, evidence := vehicle.bbox }
          :: ViolationDetector.detect_triple_riding cfg rest rider_tracks now
      else ViolationDetector.detect_triple_riding cfg rest rider_tracks now
    else ViolationDetector.detect_triple_riding cfg rest rider_tracks now

/-! ## Tracker lemmas -/

/-- The tracked object built by either tracker from a fresh id and a
detection. -/
def mkTracked (nid : ℕ) (det : Detection) : TrackedObject :=
  { id := nid, bbox := det.bbox, centroid := centroidOf det.bbox,
    original_detection := det }

/-- Closed form of `VehicleTracker.update`: ids `next_id+1 .. next_id+n` are
zipped with the detections in input order, and the state change is exactly
`next_id := next_id + n` (the `tracked_vehicles` dict is untouched). -/
theorem VehicleTracker.vehicle_update_eq (dets : List Detection)
    (st : VehicleTrackerState) :
    VehicleTracker.update dets st =
      (List.zipWith mkTracked (List.range' (st.next_id + 1) dets.length 1) dets,
       { st with next_id := st.next_id + dets.length }) := by
  induction dets generalizing st with
  | nil => simp [VehicleTracker.update]
  | cons d rest ih =>
    simp only [VehicleTracker.update, ih, List.length_cons, List.range'_succ,
      List.zipWith_cons_cons, Prod.mk.injEq, List.cons.injEq]
    refine ⟨⟨rfl, ?_⟩, ?_⟩
    · have : st.next_id + 1 + 1 = st.next_id + 1 + 1 := rfl
      norm_num
    · have : st.next_id + 1 + rest.length = st.next_id + (rest.length + 1) := by
        omega
      simp [this]

/-- Closed form of `RiderTracker.update`, identical to the vehicle case. -/
theorem RiderTracker.rider_update_eq (dets : List Detection)
    (st : RiderTrackerState) :
    RiderTracker.update dets st =
      (List.zipWith mkTracked (List.range' (st.next_id + 1) dets.length 1) dets,
       { st with next_id := st.next_id + dets.length }) := by
  induction dets generalizing st with
  | nil => simp [RiderTracker.update]
  | cons d rest ih =>
    simp only [RiderTracker.update, ih, List.length_cons, List.range'_succ,
      List.zipWith_cons_cons, Prod.mk.injEq, List.cons.injEq]
    refine ⟨⟨rfl, ?_⟩, ?_⟩
    · norm_num
    · have : st.next_id + 1 + rest.length = st.next_id + (rest.length + 1) := by
        omega
      simp [this]

/-- Every actor emitted by one `update` call has an id in the fresh window
`(next_id, next_id + n]`. -/
theorem VehicleTracker.mem_update_id_bounds (dets : List Detection)
    (st : VehicleTrackerState) (a : TrackedObject)
    (ha : a ∈ (VehicleTracker.update dets st).1) :
    st.next_id < a.id ∧ a.id ≤ st.next_id + dets.length := by
  induction dets generalizing st with
  | nil => simp [VehicleTracker.update] at ha
  | cons d rest ih =>
    simp only [VehicleTracker.update, List.mem_cons] at ha
    rcases ha with rfl | h
    · simp only [List.length_cons]
      omega
    · have := ih { st with next_id := st.next_id + 1 } h
      simp only [List.length_cons] at this ⊢
      omega

/-- Calling `update` leaves `next_id` increased by the number of detections. -/
theorem VehicleTracker.update_next_id (dets : List Detection)
    (st : VehicleTrackerState) :
    ((VehicleTracker.update dets st).2).next_id = st.next_id + dets.length := by
  rw [VehicleTracker.vehicle_update_eq]

/-- Each frame's output of a run contains `id`s strictly above the `next_id`
the run started from. -/
theorem VehicleTracker.runUpdates_mem_lower (frames : List (List Detection))
    (st : VehicleTrackerState) (j : ℕ)
    (hj : j < ((VehicleTracker.runUpdates frames st).1).length)
    (b : TrackedObject)
    (hb : b ∈ ((VehicleTracker.runUpdates frames st).1).get ⟨j, hj⟩) :
    st.next_id < b.id := by
  induction frames generalizing st j with
  | nil => simp [VehicleTracker.runUpdates] at hj
  | cons f rest ih =>
    match j with
    | 0 =>
      simp only [VehicleTracker.runUpdates, List.get] at hb
      exact (VehicleTracker.mem_update_id_bounds f st b hb).1
    | j' + 1 =>
      simp only [VehicleTracker.runUpdates, List.length_cons,
        Nat.add_lt_add_iff_right] at hj
      have hb' : b ∈ ((VehicleTracker.runUpdates rest
          (VehicleTracker.update f st).2).1).get ⟨j', hj⟩ := hb
      have := ih (VehicleTracker.update f st).2 j' hj hb'
      have hnid := VehicleTracker.update_next_id f st
      omega

/-- Across a run, ids from an earlier frame are strictly below ids from any
later frame. -/
theorem VehicleTracker.runUpdates_strict (frames : List (List Detection))
    (st : VehicleTrackerState) (i j : ℕ)
    (hi : i < ((VehicleTracker.runUpdates frames st).1).length)
    (hj : j < ((VehicleTracker.runUpdates frames st).1).length)
    (hij : i < j) (a b : TrackedObject)
    (ha : a ∈ ((VehicleTracker.runUpdates frames st).1).get ⟨i, hi⟩)
    (hb : b ∈ ((VehicleTracker.runUpdates frames st).1).get ⟨j, hj⟩) :
    a.id < b.id := by
  induction frames generalizing st i j with
  | nil => simp [VehicleTracker.runUpdates] at hi
  | cons f rest ih =>
    match i, j with
    | 0, j' + 1 =>
      simp only [VehicleTracker.runUpdates, List.get] at ha
      simp only [VehicleTracker.runUpdates, List.length_cons,
        Nat.add_lt_add_iff_right] at hj
      have hb' : b ∈ ((VehicleTracker.runUpdates rest
          (VehicleTracker.update f st).2).1).get ⟨j', hj⟩ := hb
      have h1 := (VehicleTracker.mem_update_id_bounds f st a ha).2
      have h2 := VehicleTracker.runUpdates_mem_lower rest
        (VehicleTracker.update f st).2 j' hj b hb'
      have hnid := VehicleTracker.update_next_id f st
      omega
    | i' + 1, j' + 1 =>
      simp only [VehicleTracker.runUpdates, List.length_cons,
        Nat.add_lt_add_iff_right] at hi hj
      have ha' : a ∈ ((VehicleTracker.runUpdates rest
          (VehicleTracker.update f st).2).1).get ⟨i', hi⟩ := ha
      have hb' : b ∈ ((VehicleTracker.runUpdates rest
          (VehicleTracker.update f st).2).1).get ⟨j', hj⟩ := hb
      exact ih (VehicleTracker.update f st).2 i' j' hi hj
        (Nat.lt_of_add_lt_add_right hij) ha' hb'

/-! ## Speed lemmas -/

theorem sqDist_nonneg (p q : ℤ × ℤ) : 0 ≤ sqDist p q := by
  unfold sqDist
  positivity

theorem sqDist_comm (p q : ℤ × ℤ) : sqDist p q = sqDist q p := by
  unfold sqDist
  ring

/-- For integer pixel coordinates, the source's `np.linalg.norm(...) < 100`
test is exactly the squared comparison `sqDist < 10000`. -/
theorem sqDist_lt_iff_dist_lt (p q : ℤ × ℤ) :
    sqDist p q < 10000 ↔ euclideanDist p q < 100 := by
  unfold euclideanDist
  rw [show ((100 : ℝ) = Real.sqrt (100 ^ 2)) from
    (Real.sqrt_sq (by norm_num)).symm]
  rw [Real.sqrt_lt_sqrt_iff (by exact_mod_cast sqDist_nonneg p q)]
  norm_num
  exact_mod_cast Iff.rfl

theorem SpeedVal.val_zero : SpeedVal.zero.val = 0 := by
  simp [SpeedVal.val, SpeedVal.zero]

/-- Value `val` is nonnegative when both components are. -/
theorem SpeedVal.val_nonneg (s : SpeedVal) (hc : 0 ≤ s.coeff) :
    0 ≤ s.val := by
  unfold SpeedVal.val
  have : (0 : ℝ) ≤ (s.coeff : ℝ) := by exact_mod_cast hc
  exact mul_nonneg this (Real.sqrt_nonneg _)

/-- Comparison `gtQ` decides the real comparison `q < val` exactly, for speeds with
nonnegative components. -/
theorem SpeedVal.gtQ_iff (s : SpeedVal) (q : ℚ) (hc : 0 ≤ s.coeff)
    (hr : 0 ≤ s.radicand) : s.gtQ q = true ↔ (q : ℝ) < s.val := by
  unfold SpeedVal.gtQ SpeedVal.val
  rcases lt_or_le q 0 with hq | hq
  · have hq' : ((q : ℝ) < 0) := by exact_mod_cast hq
    have hv : (0 : ℝ) ≤ (s.coeff : ℝ) * Real.sqrt (s.radicand : ℝ) :=
      mul_nonneg (by exact_mod_cast hc) (Real.sqrt_nonneg _)
    simp [hq]
    exact lt_of_lt_of_le hq' hv
  · have hq' : ((0 : ℝ) ≤ (q : ℝ)) := by exact_mod_cast hq
    have hvnn : (0 : ℝ) ≤ (s.coeff : ℝ) * Real.sqrt (s.radicand : ℝ) :=
      mul_nonneg (by exact_mod_cast hc) (Real.sqrt_nonneg _)
    have hsq : ((s.coeff : ℝ) * Real.sqrt (s.radicand : ℝ)) ^ 2
        = (s.coeff : ℝ) ^ 2 * (s.radicand : ℝ) := by
      rw [mul_pow, Real.sq_sqrt (by exact_mod_cast hr)]
    have hq0 : (decide (q < 0)) = false := by simp [not_lt.mpr hq]
    rw [hq0, Bool.false_or, decide_eq_true_eq]
    constructor
    · intro h
      have h' : ((q : ℝ)) ^ 2 < (s.coeff : ℝ) ^ 2 * (s.radicand : ℝ) := by
        exact_mod_cast h
      by_contra hcon
      push_neg at hcon
      have := pow_le_pow_left₀ hvnn hcon 2
      rw [hsq] at this
      exact absurd h' (not_lt.mpr this)
    · intro h
      have h2 : ((q : ℝ)) ^ 2
          < ((s.coeff : ℝ) * Real.sqrt (s.radicand : ℝ)) ^ 2 :=
        pow_lt_pow_left₀ h hq' (by norm_num)
      rw [hsq] at h2
      exact_mod_cast h2

/-- The speed returned by `estimate_speed` always has nonnegative
components (the coefficient contains a division by a positive elapsed time,
the radicand is a sum of squares). -/
theorem SpeedEstimator.estimate_speed_nonneg (vehicle_id : ℕ)
    (current_pos : ℤ × ℤ) (current_time : ℚ) (st : SpeedEstimatorState) :
    0 ≤ ((SpeedEstimator.estimate_speed vehicle_id current_pos current_time
        st).1).coeff ∧
    0 ≤ ((SpeedEstimator.estimate_speed vehicle_id current_pos current_time
        st).1).radicand := by
  unfold SpeedEstimator.estimate_speed
  rcases hp : dictFind vehicle_id st.previous_positions with _ | prev_pos <;>
    rcases ht : dictFind vehicle_id st.previous_times with _ | prev_time <;>
      dsimp only
  case some.some =>
    split
    · rename_i hpos
      dsimp only
      constructor
      · exact mul_nonneg (div_nonneg (by norm_num) (le_of_lt hpos))
          (by norm_num)
      · exact_mod_cast sqDist_nonneg current_pos prev_pos
    · simp [SpeedVal.zero]
  all_goals simp [SpeedVal.zero]

/-- A call for one id leaves the stored entries of every other id
untouched. -/
theorem SpeedEstimator.estimate_speed_find_other (vehicle_id : ℕ)
    (current_pos : ℤ × ℤ) (current_time : ℚ) (st : SpeedEstimatorState)
    (id' : ℕ) (h : id' ≠ vehicle_id) :
    dictFind id' ((SpeedEstimator.estimate_speed vehicle_id current_pos
        current_time st).2).previous_positions
      = dictFind id' st.previous_positions ∧
    dictFind id' ((SpeedEstimator.estimate_speed vehicle_id current_pos
        current_time st).2).previous_times
      = dictFind id' st.previous_times := by
  unfold SpeedEstimator.estimate_speed SpeedEstimator.record
  rcases hp : dictFind vehicle_id st.previous_positions with _ | prev_pos <;>
    rcases ht : dictFind vehicle_id st.previous_times with _ | prev_time <;>
      simp [dictFind, h]
  split <;> simp [dictFind, h]

/-- The returned speed depends only on the stored entries of the queried id
(and the call's own arguments). -/
theorem SpeedEstimator.estimate_speed_fst_congr (vehicle_id : ℕ)
    (current_pos : ℤ × ℤ) (current_time : ℚ) (st st' : SpeedEstimatorState)
    (hp : dictFind vehicle_id st.previous_positions
        = dictFind vehicle_id st'.previous_positions)
    (ht : dictFind vehicle_id st.previous_times
        = dictFind vehicle_id st'.previous_times) :
    (SpeedEstimator.estimate_speed vehicle_id current_pos current_time st).1
      = (SpeedEstimator.estimate_speed vehicle_id current_pos current_time
          st').1 := by
  unfold SpeedEstimator.estimate_speed
  rw [hp, ht]
  rcases dictFind vehicle_id st'.previous_positions with _ | prev_pos <;>
    rcases dictFind vehicle_id st'.previous_times with _ | prev_time <;>
      simp
  split <;> simp

/-! ## Rule-engine lemmas -/

/-- Every overspeeding event names one of the input vehicles. -/
theorem ViolationDetector.detect_overspeeding_mem_ids (cfg : Config)
    (vs : List TrackedObject) (t : ℚ) (est : SpeedEstimatorState) (now : ℚ)
    (e : OverspeedEvent)
    (he : e ∈ (ViolationDetector.detect_overspeeding cfg vs t est now).1) :
    e.vehicle_id ∈ vs.map TrackedObject.id := by
  induction vs generalizing est with
  | nil => simp [ViolationDetector.detect_overspeeding] at he
  | cons v rest ih =>
    simp only [ViolationDetector.detect_overspeeding] at he
    split at he
    · rcases List.mem_cons.mp he with rfl | he'
      · simp
      · simp only [List.map_cons, List.mem_cons]
        exact Or.inr (ih _ he')
    · simp only [List.map_cons, List.mem_cons]
      exact Or.inr (ih _ he)

/-- The events of `detect_overspeeding` that name a given vehicle `v`
(occurring once among the inputs): exactly one event, carrying the speed
estimated for `v` against the initial estimator state, when the source's
`speed > threshold and speed > 5` test passes; no event otherwise. -/
theorem ViolationDetector.detect_overspeeding_filter (cfg : Config)
    (vs : List TrackedObject) (t : ℚ) (est : SpeedEstimatorState) (now : ℚ)
    (v : TrackedObject) (hmem : v ∈ vs)
    (hnodup : (vs.map TrackedObject.id).Nodup) :
    ((ViolationDetector.detect_overspeeding cfg vs t est now).1).filter
        (fun e => decide (e.vehicle_id = v.id))
      = (if ((SpeedEstimator.estimate_speed v.id v.centroid t est).1).gtQ
              cfg.OVERSPEED_THRESHOLD
            && ((SpeedEstimator.estimate_speed v.id v.centroid t est).1).gtQ 5
         then [{ vehicle_id := v.id,
                 speed := (SpeedEstimator.estimate_speed v.id v.centroid t
                   est).1,
                 timestamp := now, evidence := v.bbox }]
         else []) := by
  induction vs generalizing est with
  | nil => simp at hmem
  | cons w rest ih =>
    have hnodup2 : w.id ∉ rest.map TrackedObject.id ∧
        (rest.map TrackedObject.id).Nodup :=
      List.nodup_cons.mp (by simpa using hnodup)
    rcases List.mem_cons.mp hmem with rfl | hmem'
    · simp only [ViolationDetector.detect_overspeeding]
      have hrest : ∀ e ∈ (ViolationDetector.detect_overspeeding cfg rest t
          (SpeedEstimator.estimate_speed v.id v.centroid t est).2 now).1,
          ¬ ((fun e => decide (e.vehicle_id = v.id)) e = true) := by
        intro e he
        have := ViolationDetector.detect_overspeeding_mem_ids cfg rest t _ now
          e he
        simp only [decide_eq_true_eq]
        intro hcontra
        exact hnodup2.1 (hcontra ▸ this)
      cases hc : ((SpeedEstimator.estimate_speed v.id v.centroid t est).1.gtQ
          cfg.OVERSPEED_THRESHOLD
        && (SpeedEstimator.estimate_speed v.id v.centroid t est).1.gtQ 5) with
      | false =>
        simp only [hc, Bool.false_eq_true, if_false]
        exact List.filter_eq_nil_iff.mpr hrest
      | true =>
        simp only [hc, if_true]
        rw [List.filter_cons_of_pos (by simp)]
        rw [List.filter_eq_nil_iff.mpr hrest]
    · have hwv : w.id ≠ v.id := by
        intro hcontra
        exact hnodup2.1 (hcontra ▸ (List.mem_map_of_mem TrackedObject.id hmem'))
      have hspeed : (SpeedEstimator.estimate_speed v.id v.centroid t
            (SpeedEstimator.estimate_speed w.id w.centroid t est).2).1
          = (SpeedEstimator.estimate_speed v.id v.centroid t est).1 := by
        have hother := SpeedEstimator.estimate_speed_find_other w.id w.centroid
          t est v.id (Ne.symm hwv)
        exact SpeedEstimator.estimate_speed_fst_congr v.id v.centroid t _ _
          hother.1 hother.2
      have hih := ih (SpeedEstimator.estimate_speed w.id w.centroid t est).2
        hmem' hnodup2.2
      rw [hspeed] at hih
      simp only [ViolationDetector.detect_overspeeding]
      split
      · rw [List.filter_cons_of_neg (by simp [hwv])]
        exact hih
      · exact hih

/-- Every triple-riding event names one of the input vehicles. -/
theorem ViolationDetector.detect_triple_riding_mem_ids (cfg : Config)
    (vehicles riders : List TrackedObject) (now : ℚ) (e : TripleRidingEvent)
    (he : e ∈ ViolationDetector.detect_triple_riding cfg vehicles riders now) :
    e.vehicle_id ∈ vehicles.map TrackedObject.id := by
  induction vehicles with
  | nil => simp [ViolationDetector.detect_triple_riding] at he
  | cons v rest ih =>
    simp only [ViolationDetector.detect_triple_riding] at he
    split at he
    · split at he
      · rcases List.mem_cons.mp he with rfl | he'
        · simp
        · simp only [List.map_cons, List.mem_cons]
          exact Or.inr (ih he')
      · simp only [List.map_cons, List.mem_cons]
        exact Or.inr (ih he)
    · simp only [List.map_cons, List.mem_cons]
      exact Or.inr (ih he)

/-- The events of `detect_triple_riding` that name a given motorcycle-class
vehicle `v` (occurring once among the inputs): exactly one event carrying
the in-radius rider count when that count strictly exceeds the threshold,
and no event otherwise. -/
theorem ViolationDetector.detect_triple_riding_filter (cfg : Config)
    (vehicles riders : List TrackedObject) (now : ℚ) (v : TrackedObject)
    (hmem : v ∈ vehicles)
    (hnodup : (vehicles.map TrackedObject.id).Nodup)
    (hmoto : v.original_detection.class_id = some 3) :
    (ViolationDetector.detect_triple_riding cfg vehicles riders now).filter
        (fun e => decide (e.vehicle_id = v.id))
      = (if cfg.TRIPLE_RIDING_MAX_PERSONS
            < ViolationDetector.count_riders_near_vehicle v riders
         then [{ vehicle_id := v.id,
                 rider_count :=
                   ViolationDetector.count_riders_near_vehicle v riders,
                 timestamp := now, evidence := v.bbox }]
         else []) := by
  induction vehicles with
  | nil => simp at hmem
  | cons w rest ih =>
    have hnodup2 : w.id ∉ rest.map TrackedObject.id ∧
        (rest.map TrackedObject.id).Nodup :=
      List.nodup_cons.mp (by simpa using hnodup)
    rcases List.mem_cons.mp hmem with rfl | hmem'
    · have hrest : ∀ e ∈ ViolationDetector.detect_triple_riding cfg rest
          riders now,
          ¬ ((fun e => decide (e.vehicle_id = v.id)) e = true) := by
        intro e he
        have := ViolationDetector.detect_triple_riding_mem_ids cfg rest riders
          now e he
        simp only [decide_eq_true_eq]
        intro hcontra
        exact hnodup2.1 (hcontra ▸ this)
      simp only [ViolationDetector.detect_triple_riding, hmoto, if_true,
        eq_self_iff_true]
      rcases lt_or_le cfg.TRIPLE_RIDING_MAX_PERSONS
          (ViolationDetector.count_riders_near_vehicle v riders) with hcount |
          hcount
      · rw [if_pos hcount, if_pos hcount,
          List.filter_cons_of_pos (by simp),
          List.filter_eq_nil_iff.mpr hrest]
      · rw [if_neg (not_lt.mpr hcount), if_neg (not_lt.mpr hcount)]
        exact List.filter_eq_nil_iff.mpr hrest
    · have hwv : w.id ≠ v.id := by
        intro hcontra
        exact hnodup2.1 (hcontra ▸ (List.mem_map_of_mem TrackedObject.id hmem'))
      have hih := ih hmem' hnodup2.2
      simp only [ViolationDetector.detect_triple_riding]
      split
      · split
        · rw [List.filter_cons_of_neg (by simp [hwv])]
          exact hih
        · exact hih
      · exact hih

/-! ## Concrete fixtures used by witnesses and counterexamples -/

/-- A sample bounding box. -/
def bbA : BBox := ⟨0, 0, 10, 10⟩

/-- A sample detection with no class information. -/
def detA : Detection := { bbox := bbA }

/-- A sample motorcycle-class detection (`class_id == 3`). -/
def detM : Detection := { bbox := bbA, class_id := some 3 }

/-! ## Claim theorems -/

/-- Claim C10: every `update` call on either tracker returns one tracked
object per detection, in input order, the k-th carrying the freshly
allocated id `next_id_before + k` and the integer-floor midpoint of its bbox
as centroid (so ids strictly increase and are never repeated), and the only
state change is `next_id := next_id + n`: the `tracked_vehicles` /
`tracked_riders` dict is never read or written, hence stays as it was
(empty, for a fresh instance). -/
theorem claim_C10_tracker_update_closed_form (dets : List Detection)
    (stv : VehicleTrackerState) (str : RiderTrackerState) :
    VehicleTracker.update dets stv =
      (List.zipWith mkTracked (List.range' (stv.next_id + 1) dets.length 1)
        dets,
       { stv with next_id := stv.next_id + dets.length }) ∧
    RiderTracker.update dets str =
      (List.zipWith mkTracked (List.range' (str.next_id + 1) dets.length 1)
        dets,
       { str with next_id := str.next_id + dets.length }) :=
  ⟨VehicleTracker.vehicle_update_eq dets stv, RiderTracker.rider_update_eq dets str⟩

/-- Claim C1 counterexample: a single object whose detection does not move at
all (displacement 0, below any positive association gate) receives id 1 in
the first frame and id 2 in the second frame, on both trackers — the id is
not retained. -/
theorem claim_C1_counterexample :
    ((VehicleTracker.update [detA] ⟨[], 0⟩).1.map TrackedObject.id = [1]) ∧
    ((VehicleTracker.update [detA]
        (VehicleTracker.update [detA] ⟨[], 0⟩).2).1.map TrackedObject.id
      = [2]) ∧
    ((RiderTracker.update [detA] ⟨[], 0⟩).1.map TrackedObject.id = [1]) ∧
    ((RiderTracker.update [detA]
        (RiderTracker.update [detA] ⟨[], 0⟩).2).1.map TrackedObject.id
      = [2]) ∧
    (1 : ℕ) ≠ 2 := by
  refine ⟨rfl, rfl, rfl, rfl, by decide⟩

/-- Claim C1, amended: the trackers perform no association at all; each
`update` call allocates a fresh id to every detection, so an object present
in two consecutive frames (however little it moved) is emitted with id
`next_id + 1` in the first frame and id `next_id + 2` in the second —
never the same id twice. -/
theorem claim_C1_amended_fresh_ids (stv : VehicleTrackerState)
    (str : RiderTrackerState) (d d' : Detection) :
    ((VehicleTracker.update [d] stv).1.map TrackedObject.id
      = [stv.next_id + 1]) ∧
    ((VehicleTracker.update [d']
        (VehicleTracker.update [d] stv).2).1.map TrackedObject.id
      = [stv.next_id + 2]) ∧
    ((RiderTracker.update [d] str).1.map TrackedObject.id
      = [str.next_id + 1]) ∧
    ((RiderTracker.update [d']
        (RiderTracker.update [d] str).2).1.map TrackedObject.id
      = [str.next_id + 2]) := by
  refine ⟨?_, ?_, ?_, ?_⟩ <;>
    simp [VehicleTracker.update, RiderTracker.update, mkTracked]

/-- Claim C2: an actor emitted at frame `i` of a `VehicleTracker` run — in
particular one that has gone unmatched for more than `max_age = 30`
consecutive calls — is absent from the output of every later frame `j`, and
its id is never carried by any actor created later.  This holds here without
any staleness hypothesis: the tracker re-emits nothing, and ids strictly
increase across frames. -/
theorem claim_C2_eviction_absence (frames : List (List Detection))
    (st : VehicleTrackerState) (i j : ℕ)
    (hi : i < ((VehicleTracker.runUpdates frames st).1).length)
    (hj : j < ((VehicleTracker.runUpdates frames st).1).length)
    (hij : i < j) (a : TrackedObject)
    (ha : a ∈ ((VehicleTracker.runUpdates frames st).1).get ⟨i, hi⟩) :
    a.id ∉ (((VehicleTracker.runUpdates frames st).1).get ⟨j, hj⟩).map
      TrackedObject.id := by
  intro hmem
  rcases List.mem_map.mp hmem with ⟨b, hb, hid⟩
  have := VehicleTracker.runUpdates_strict frames st i j hi hj hij a b ha hb
  omega

/-- Witness for C2 at a concrete two-frame run. -/
theorem claim_C2_eviction_absence_witness :
    mkTracked 1 detA
        ∈ ((VehicleTracker.runUpdates [[detA], [detA]] ⟨[], 0⟩).1).get
          ⟨0, by decide⟩ ∧
    (mkTracked 1 detA).id
        ∉ (((VehicleTracker.runUpdates [[detA], [detA]] ⟨[], 0⟩).1).get
          ⟨1, by decide⟩).map TrackedObject.id := by
  constructor
  · decide
  · exact claim_C2_eviction_absence [[detA], [detA]] ⟨[], 0⟩ 0 1 (by decide)
      (by decide) (by decide) (mkTracked 1 detA) (by decide)

/-- Claim C3: once the estimator has recorded `P0` at `t0` for an id, a call
with `P1` at `t1 > t0` returns exactly
`euclidean_distance(P0, P1) * 0.1 * 3.6 / (t1 - t0)` km/h. -/
theorem claim_C3_speed_formula (vehicle_id : ℕ) (P0 P1 : ℤ × ℤ) (t0 t1 : ℚ)
    (st : SpeedEstimatorState)
    (hp : dictFind vehicle_id st.previous_positions = some P0)
    (ht : dictFind vehicle_id st.previous_times = some t0)
    (htt : t0 < t1) :
    ((SpeedEstimator.estimate_speed vehicle_id P1 t1 st).1).val
      = euclideanDist P0 P1 * (0.1 : ℝ) * (3.6 : ℝ)
        / ((t1 : ℝ) - (t0 : ℝ)) := by
  have hpos : (0 : ℚ) < t1 - t0 := by linarith
  simp only [SpeedEstimator.estimate_speed, hp, ht]
  rw [if_pos hpos]
  unfold SpeedVal.val euclideanDist
  rw [sqDist_comm P1 P0] -- the source computes current − previous
  push_cast
  rw [show ((0.1 : ℝ) = 1 / 10) by norm_num,
    show ((3.6 : ℝ) = 36 / 10) by norm_num]
  ring

/-- Witness for C3: `P0 = (0,0)` at `t0 = 0`, `P1 = (100,0)` at `t1 = 1`
second gives exactly 36 km/h. -/
theorem claim_C3_speed_formula_witness :
    dictFind 1 ((SpeedEstimator.estimate_speed 1 (0, 0) 0
        ⟨[], []⟩).2).previous_positions = some (0, 0) ∧
    dictFind 1 ((SpeedEstimator.estimate_speed 1 (0, 0) 0
        ⟨[], []⟩).2).previous_times = some 0 ∧
    (0 : ℚ) < 1 ∧
    ((SpeedEstimator.estimate_speed 1 (100, 0) 1
        (SpeedEstimator.estimate_speed 1 (0, 0) 0 ⟨[], []⟩).2).1).val = 36 := by
  refine ⟨rfl, rfl, by norm_num, ?_⟩
  have h := claim_C3_speed_formula 1 (0, 0) (100, 0) 0 1
    (SpeedEstimator.estimate_speed 1 (0, 0) 0 ⟨[], []⟩).2 rfl rfl
    (by norm_num)
  rw [h]
  have hdist : euclideanDist (0, 0) (100, 0) = 100 := by
    unfold euclideanDist sqDist
    norm_num
    rw [show ((10000 : ℝ) = 100 ^ 2) by norm_num,
      Real.sqrt_sq (by norm_num : (0 : ℝ) ≤ 100)]
  rw [hdist]
  norm_num

/-- Claim C4 counterexample: after the estimator has recorded position
`(0,0)` at time 0 for id 1, the call `estimate_speed(1, (100,0), 1)` returns
a measured speed and leaves the stored observation at `((0,0), 0)` — the
stored state is NOT refreshed with the passed position/time (the source
returns early, skipping the dict writes). -/
theorem claim_C4_counterexample :
    dictFind 1 ((SpeedEstimator.estimate_speed 1 (100, 0) 1
        (SpeedEstimator.estimate_speed 1 (0, 0) 0
          ⟨[], []⟩).2).2).previous_positions = some (0, 0) ∧
    dictFind 1 ((SpeedEstimator.estimate_speed 1 (100, 0) 1
        (SpeedEstimator.estimate_speed 1 (0, 0) 0
          ⟨[], []⟩).2).2).previous_times = some 0 ∧
    some ((0 : ℤ), (0 : ℤ)) ≠ some ((100 : ℤ), (0 : ℤ)) ∧
    some (0 : ℚ) ≠ some (1 : ℚ) := by
  have hstep1 : (SpeedEstimator.estimate_speed 1 (0, 0) 0 ⟨[], []⟩).2
      = (⟨[(1, (0, 0))], [(1, 0)]⟩ : SpeedEstimatorState) := by
    simp [SpeedEstimator.estimate_speed, dictFind, SpeedEstimator.record]
  have hstale : (SpeedEstimator.estimate_speed 1 (100, 0) 1
        (⟨[(1, (0, 0))], [(1, 0)]⟩ : SpeedEstimatorState)).2
      = (⟨[(1, (0, 0))], [(1, 0)]⟩ : SpeedEstimatorState) := by
    simp only [SpeedEstimator.estimate_speed, dictFind, if_true,
      eq_self_iff_true]
    rw [if_pos (by norm_num : (0 : ℚ) < 1 - 0)]
  rw [hstep1, hstale]
  refine ⟨by simp [dictFind], by simp [dictFind], by decide, ?_⟩
  simp

/-- Claim C4, amended: the stored observation is overwritten with the passed
position/time only on the fall-through path — first observation of the id,
or elapsed time `≤ 0`; a call that finds a prior observation with positive
elapsed time (and hence returns a measured speed) leaves the estimator state
completely unchanged. -/
theorem claim_C4_amended_state_refresh (vehicle_id : ℕ) (pos : ℤ × ℤ) (t : ℚ)
    (st : SpeedEstimatorState) :
    (∀ P0 t0, dictFind vehicle_id st.previous_positions = some P0 →
      dictFind vehicle_id st.previous_times = some t0 → t0 < t →
      (SpeedEstimator.estimate_speed vehicle_id pos t st).2 = st) ∧
    (dictFind vehicle_id st.previous_positions = none →
      dictFind vehicle_id ((SpeedEstimator.estimate_speed vehicle_id pos t
          st).2).previous_positions = some pos ∧
      dictFind vehicle_id ((SpeedEstimator.estimate_speed vehicle_id pos t
          st).2).previous_times = some t) ∧
    (∀ P0 t0, dictFind vehicle_id st.previous_positions = some P0 →
      dictFind vehicle_id st.previous_times = some t0 → t ≤ t0 →
      dictFind vehicle_id ((SpeedEstimator.estimate_speed vehicle_id pos t
          st).2).previous_positions = some pos ∧
      dictFind vehicle_id ((SpeedEstimator.estimate_speed vehicle_id pos t
          st).2).previous_times = some t) := by
  refine ⟨?_, ?_, ?_⟩
  · intro P0 t0 hp ht htt
    simp only [SpeedEstimator.estimate_speed, hp, ht]
    rw [if_pos (by linarith : (0 : ℚ) < t - t0)]
  · intro hp
    simp only [SpeedEstimator.estimate_speed, hp, SpeedEstimator.record]
    simp [dictFind]
  · intro P0 t0 hp ht htt
    simp only [SpeedEstimator.estimate_speed, hp, ht]
    rw [if_neg (by linarith : ¬ (0 : ℚ) < t - t0)]
    simp [SpeedEstimator.record, dictFind]

/-- Witness for the amended C4: a measuring call leaves the state unchanged,
and a first call records the passed observation. -/
theorem claim_C4_amended_state_refresh_witness :
    dictFind 1 ((SpeedEstimator.estimate_speed 1 (0, 0) 0
        ⟨[], []⟩).2).previous_positions = some (0, 0) ∧
    (0 : ℚ) < 1 ∧
    (SpeedEstimator.estimate_speed 1 (100, 0) 1
        (SpeedEstimator.estimate_speed 1 (0, 0) 0 ⟨[], []⟩).2).2
      = (SpeedEstimator.estimate_speed 1 (0, 0) 0 ⟨[], []⟩).2 ∧
    dictFind 2 ((⟨[], []⟩ : SpeedEstimatorState)).previous_positions = none ∧
    dictFind 2 ((SpeedEstimator.estimate_speed 2 (7, 8) 5
        ⟨[], []⟩).2).previous_positions = some (7, 8) ∧
    dictFind 2 ((SpeedEstimator.estimate_speed 2 (7, 8) 5
        ⟨[], []⟩).2).previous_times = some 5 := by
  have h1 := (claim_C4_amended_state_refresh 1 (100, 0) 1
    (SpeedEstimator.estimate_speed 1 (0, 0) 0 ⟨[], []⟩).2).1 (0, 0) 0 rfl rfl
    (by norm_num)
  have h2 := (claim_C4_amended_state_refresh 2 (7, 8) 5 ⟨[], []⟩).2.1 rfl
  exact ⟨rfl, by norm_num, h1, rfl, h2.1, h2.2⟩

/-- Claim C5: `estimate_speed` returns 0 for a never-seen id and for a
non-positive elapsed time, and its result is never negative (`val` is a real
number, so it is never infinite and no division by zero occurs). -/
theorem claim_C5_degenerate_guard (vehicle_id : ℕ) (pos : ℤ × ℤ) (t : ℚ)
    (st : SpeedEstimatorState) :
    0 ≤ ((SpeedEstimator.estimate_speed vehicle_id pos t st).1).val ∧
    ((dictFind vehicle_id st.previous_positions = none ∨
      (∃ t0, dictFind vehicle_id st.previous_times = some t0 ∧ t - t0 ≤ 0)) →
      ((SpeedEstimator.estimate_speed vehicle_id pos t st).1).val = 0) := by
  constructor
  · exact SpeedVal.val_nonneg _
      (SpeedEstimator.estimate_speed_nonneg vehicle_id pos t st).1
  · intro h
    rcases h with hnone | ⟨t0, ht0, hle⟩
    · simp only [SpeedEstimator.estimate_speed, hnone]
      exact SpeedVal.val_zero
    · rcases hp : dictFind vehicle_id st.previous_positions with _ | P0
      · simp only [SpeedEstimator.estimate_speed, hp]
        exact SpeedVal.val_zero
      · simp only [SpeedEstimator.estimate_speed, hp, ht0]
        rw [if_neg (by linarith : ¬ (0 : ℚ) < t - t0)]
        exact SpeedVal.val_zero

/-- Witness for C5 at a never-seen id. -/
theorem claim_C5_degenerate_guard_witness :
    (dictFind 9 ((⟨[], []⟩ : SpeedEstimatorState)).previous_positions = none ∨
      (∃ t0, dictFind 9 ((⟨[], []⟩ :
        SpeedEstimatorState)).previous_times = some t0 ∧ (3 : ℚ) - t0 ≤ 0)) ∧
    ((SpeedEstimator.estimate_speed 9 (4, 4) 3 ⟨[], []⟩).1).val = 0 :=
  ⟨Or.inl rfl,
    (claim_C5_degenerate_guard 9 (4, 4) 3 ⟨[], []⟩).2 (Or.inl rfl)⟩

/-- Claim C6: a tracked vehicle occurring once among the inputs of
`detect_overspeeding` receives exactly one `overspeeding` event precisely
when its estimated speed is strictly greater than the configured threshold
and strictly greater than the 5 km/h noise floor, and no event otherwise. -/
theorem claim_C6_overspeeding_rule (cfg : Config)
    (vehicle_tracks : List TrackedObject) (frame_time : ℚ)
    (est : SpeedEstimatorState) (now : ℚ) (v : TrackedObject)
    (hmem : v ∈ vehicle_tracks)
    (hnodup : (vehicle_tracks.map TrackedObject.id).Nodup) :
    (((cfg.OVERSPEED_THRESHOLD : ℝ)
          < ((SpeedEstimator.estimate_speed v.id v.centroid frame_time
            est).1).val ∧
        (5 : ℝ)
          < ((SpeedEstimator.estimate_speed v.id v.centroid frame_time
            est).1).val) →
      ((ViolationDetector.detect_overspeeding cfg vehicle_tracks frame_time
          est now).1).filter (fun e => decide (e.vehicle_id = v.id))
        = [{ vehicle_id := v.id,
             speed := (SpeedEstimator.estimate_speed v.id v.centroid
               frame_time est).1,
             timestamp := now, evidence := v.bbox }]) ∧
    (¬ ((cfg.OVERSPEED_THRESHOLD : ℝ)
          < ((SpeedEstimator.estimate_speed v.id v.centroid frame_time
            est).1).val ∧
        (5 : ℝ)
          < ((SpeedEstimator.estimate_speed v.id v.centroid frame_time
            est).1).val) →
      ((ViolationDetector.detect_overspeeding cfg vehicle_tracks frame_time
          est now).1).filter (fun e => decide (e.vehicle_id = v.id))
        = []) := by
  have hnn := SpeedEstimator.estimate_speed_nonneg v.id v.centroid frame_time
    est
  have hfilter := ViolationDetector.detect_overspeeding_filter cfg
    vehicle_tracks frame_time est now v hmem hnodup
  have hiff1 := SpeedVal.gtQ_iff
    ((SpeedEstimator.estimate_speed v.id v.centroid frame_time est).1)
    cfg.OVERSPEED_THRESHOLD hnn.1 hnn.2
  have hiff2 := SpeedVal.gtQ_iff
    ((SpeedEstimator.estimate_speed v.id v.centroid frame_time est).1)
    5 hnn.1 hnn.2
  have h5 : (((5 : ℚ) : ℝ)) = (5 : ℝ) := by norm_num
  rw [h5] at hiff2
  constructor
  · intro hpass
    have hb : (((SpeedEstimator.estimate_speed v.id v.centroid frame_time
          est).1).gtQ cfg.OVERSPEED_THRESHOLD
        && ((SpeedEstimator.estimate_speed v.id v.centroid frame_time
          est).1).gtQ 5) = true := by
      rw [Bool.and_eq_true]
      exact ⟨hiff1.mpr hpass.1, hiff2.mpr hpass.2⟩
    rw [hfilter, if_pos hb]
  · intro hfail
    have hb : (((SpeedEstimator.estimate_speed v.id v.centroid frame_time
          est).1).gtQ cfg.OVERSPEED_THRESHOLD
        && ((SpeedEstimator.estimate_speed v.id v.centroid frame_time
          est).1).gtQ 5) = false := by
      cases hc : (((SpeedEstimator.estimate_speed v.id v.centroid frame_time
          est).1).gtQ cfg.OVERSPEED_THRESHOLD
        && ((SpeedEstimator.estimate_speed v.id v.centroid frame_time
          est).1).gtQ 5) with
      | false => rfl
      | true =>
        rw [Bool.and_eq_true] at hc
        exact absurd ⟨hiff1.mp hc.1, hiff2.mp hc.2⟩ hfail
    rw [hfilter, if_neg (by simp [hb])]

/-- Default configuration: `OVERSPEED_THRESHOLD = 60`,
`TRIPLE_RIDING_MAX_PERSONS = 3`. -/
def cfg0 : Config := {}

/-- Vehicle whose estimated speed against `estC6` is exactly 61 km/h. -/
def vA61 : TrackedObject :=
  { id := 1, bbox := bbA, centroid := (100, 0), original_detection := detA }

/-- Vehicle whose estimated speed against `estC6` is exactly 60 km/h. -/
def vA60 : TrackedObject :=
  { id := 2, bbox := bbA, centroid := (100, 0), original_detection := detA }

/-- Estimator state holding prior observations for ids 1 and 2 chosen so a
100-pixel displacement at frame time 0 yields 61 resp. 60 km/h. -/
def estC6 : SpeedEstimatorState :=
  ⟨[(1, (0, 0)), (2, (0, 0))], [(1, -(36 / 61)), (2, -(3 / 5))]⟩

/-- Witness for C6 with threshold 60: the 61 km/h vehicle gets exactly one
event, the 60 km/h vehicle gets none. -/
theorem claim_C6_overspeeding_rule_witness :
    vA61 ∈ [vA61, vA60] ∧
    (([vA61, vA60].map TrackedObject.id).Nodup) ∧
    ((ViolationDetector.detect_overspeeding cfg0 [vA61, vA60] 0 estC6
        0).1).filter (fun e => decide (e.vehicle_id = vA61.id))
      = [{ vehicle_id := vA61.id, speed := ⟨61 / 100, 10000⟩, timestamp := 0,
           evidence := vA61.bbox }] ∧
    ((ViolationDetector.detect_overspeeding cfg0 [vA61, vA60] 0 estC6
        0).1).filter (fun e => decide (e.vehicle_id = vA60.id))
      = [] := by
  have hs1 : (SpeedEstimator.estimate_speed vA61.id vA61.centroid 0
      estC6).1 = (⟨61 / 100, 10000⟩ : SpeedVal) := by
    simp only [vA61, estC6, SpeedEstimator.estimate_speed, dictFind, if_true,
      eq_self_iff_true]
    rw [if_pos (by norm_num : (0 : ℚ) < 0 - -(36 / 61))]
    simp only [SpeedVal.mk.injEq, sqDist]
    norm_num
  have hs2 : (SpeedEstimator.estimate_speed vA60.id vA60.centroid 0
      estC6).1 = (⟨3 / 5, 10000⟩ : SpeedVal) := by
    simp only [vA60, estC6, SpeedEstimator.estimate_speed, dictFind]
    norm_num
    norm_num [sqDist]
  have hval1 : (⟨61 / 100, 10000⟩ : SpeedVal).val = 61 := by
    show ((61 / 100 : ℚ) : ℝ) * Real.sqrt ((10000 : ℚ) : ℝ) = 61
    rw [show (((10000 : ℚ) : ℝ)) = 100 ^ 2 by norm_num,
      Real.sqrt_sq (by norm_num : (0 : ℝ) ≤ 100)]
    norm_num
  have hval2 : (⟨3 / 5, 10000⟩ : SpeedVal).val = 60 := by
    show ((3 / 5 : ℚ) : ℝ) * Real.sqrt ((10000 : ℚ) : ℝ) = 60
    rw [show (((10000 : ℚ) : ℝ)) = 100 ^ 2 by norm_num,
      Real.sqrt_sq (by norm_num : (0 : ℝ) ≤ 100)]
    norm_num
  have hth : ((cfg0.OVERSPEED_THRESHOLD : ℚ) : ℝ) = 60 := by
    norm_num [cfg0, Config.OVERSPEED_THRESHOLD]
  refine ⟨by simp, by decide, ?_, ?_⟩
  · have h := (claim_C6_overspeeding_rule cfg0 [vA61, vA60] 0 estC6 0 vA61
      (by simp) (by decide)).1 ?_
    · rw [hs1] at h
      exact h
    · constructor
      · rw [hs1, hval1, hth]
        norm_num
      · rw [hs1, hval1]
        norm_num
  · refine (claim_C6_overspeeding_rule cfg0 [vA61, vA60] 0 estC6 0 vA60
      (by simp) (by decide)).2 ?_
    intro hcon
    rw [hs2, hval2, hth] at hcon
    exact absurd hcon.1 (by norm_num)

/-- Claim C7: a motorcycle-class tracked vehicle occurring once among the
inputs of `detect_triple_riding` receives exactly one `triple_riding` event
carrying the count of riders within the fixed 100-pixel radius precisely
when that count strictly exceeds `TRIPLE_RIDING_MAX_PERSONS`, and no event
otherwise (see `sqDist_lt_iff_dist_lt` for the radius reading). -/
theorem claim_C7_triple_riding_rule (cfg : Config)
    (vehicle_tracks rider_tracks : List TrackedObject) (now : ℚ)
    (v : TrackedObject) (hmem : v ∈ vehicle_tracks)
    (hnodup : (vehicle_tracks.map TrackedObject.id).Nodup)
    (hmoto : v.original_detection.class_id = some 3) :
    (cfg.TRIPLE_RIDING_MAX_PERSONS
        < ViolationDetector.count_riders_near_vehicle v rider_tracks →
      (ViolationDetector.detect_triple_riding cfg vehicle_tracks rider_tracks
          now).filter (fun e => decide (e.vehicle_id = v.id))
        = [{ vehicle_id := v.id,
             rider_count :=
               ViolationDetector.count_riders_near_vehicle v rider_tracks,
             timestamp := now, evidence := v.bbox }]) ∧
    (ViolationDetector.count_riders_near_vehicle v rider_tracks
        ≤ cfg.TRIPLE_RIDING_MAX_PERSONS →
      (ViolationDetector.detect_triple_riding cfg vehicle_tracks rider_tracks
          now).filter (fun e => decide (e.vehicle_id = v.id)) = []) := by
  have hfilter := ViolationDetector.detect_triple_riding_filter cfg
    vehicle_tracks rider_tracks now v hmem hnodup hmoto
  exact ⟨fun h => by rw [hfilter, if_pos h],
    fun h => by rw [hfilter, if_neg (not_lt.mpr h)]⟩

/-- A motorcycle-class tracked vehicle at the origin. -/
def vM : TrackedObject :=
  { id := 1, bbox := bbA, centroid := (0, 0), original_detection := detM }

/-- Four riders within 100 pixels of the origin. -/
def riders4 : List TrackedObject :=
  [{ id := 11, bbox := bbA, centroid := (1, 0), original_detection := detA },
   { id := 12, bbox := bbA, centroid := (2, 0), original_detection := detA },
   { id := 13, bbox := bbA, centroid := (3, 0), original_detection := detA },
   { id := 14, bbox := bbA, centroid := (4, 0), original_detection := detA }]

/-- Three riders within 100 pixels of the origin. -/
def riders3 : List TrackedObject :=
  [{ id := 11, bbox := bbA, centroid := (1, 0), original_detection := detA },
   { id := 12, bbox := bbA, centroid := (2, 0), original_detection := detA },
   { id := 13, bbox := bbA, centroid := (3, 0), original_detection := detA }]

/-- Witness for C7 with threshold 3: four in-radius riders give one event
with `rider_count = 4`, three give none. -/
theorem claim_C7_triple_riding_rule_witness :
    ViolationDetector.count_riders_near_vehicle vM riders4 = 4 ∧
    ViolationDetector.count_riders_near_vehicle vM riders3 = 3 ∧
    cfg0.TRIPLE_RIDING_MAX_PERSONS = 3 ∧
    (ViolationDetector.detect_triple_riding cfg0 [vM] riders4 0).filter
        (fun e => decide (e.vehicle_id = vM.id))
      = [{ vehicle_id := vM.id, rider_count := 4, timestamp := 0,
           evidence := vM.bbox }] ∧
    (ViolationDetector.detect_triple_riding cfg0 [vM] riders3 0).filter
        (fun e => decide (e.vehicle_id = vM.id)) = [] := by
  have hc4 : ViolationDetector.count_riders_near_vehicle vM riders4 = 4 := by
    decide
  have hc3 : ViolationDetector.count_riders_near_vehicle vM riders3 = 3 := by
    decide
  refine ⟨hc4, hc3, rfl, ?_, ?_⟩
  · have h := (claim_C7_triple_riding_rule cfg0 [vM] riders4 0 vM (by simp)
      (by decide) rfl).1 (by rw [hc4]; decide)
    rw [hc4] at h
    exact h
  · exact (claim_C7_triple_riding_rule cfg0 [vM] riders3 0 vM (by simp)
      (by decide) rfl).2 (by rw [hc3]; decide)

/-- A rider whose helmet is reported as detected. -/
def riderH : TrackedObject :=
  { id := 1, bbox := bbA, centroid := (5, 5), original_detection := detA }

/-- Claim C8, code bug: `detect_helmetless_riding` emits events by a random
draw (`random.random() < 0.6`) and ignores the supplied helmet flags
entirely (it computes `helmet_person_ids` and never reads it).  Here a rider
WITH `helmet_detected = True` still receives a `helmetless_riding` event
when the draw is 1/2, and receives none when the draw is 9/10 — the output
depends on the random stream, not on the helmet flags. -/
theorem claim_C8_helmet_flags_ignored :
    (ViolationDetector.detect_helmetless_riding [riderH]
        [{ person_id := 1, helmet_detected := true }] 0
        (fun _ => 1 / 2) 0).1
      = [{ rider_id := 1, timestamp := 0, evidence := bbA }] ∧
    (ViolationDetector.detect_helmetless_riding [riderH]
        [{ person_id := 1, helmet_detected := true }] 0
        (fun _ => 9 / 10) 0).1
      = [] := by
  constructor
  · simp only [ViolationDetector.detect_helmetless_riding,
      ViolationDetector.helmetless_loop, riderH, Option.getD_none, if_true]
    rw [if_pos (by norm_num : (1 : ℚ) / 2 < 6 / 10)]
  · simp only [ViolationDetector.detect_helmetless_riding,
      ViolationDetector.helmetless_loop, riderH, Option.getD_none, if_true]
    rw [if_neg (by norm_num : ¬ (9 : ℚ) / 10 < 6 / 10)]

/-- Claim C9: each rule of the `ViolationDetector` is a pure function of its
tracked-actor snapshot, its auxiliary signals and — where the source draws
randomness or reads the clock — the explicitly supplied random stream and
timestamp; two invocations on identical inputs therefore return identical
event lists. -/
theorem claim_C9_two_run_determinism
    (vehicle_tracks rider_tracks : List TrackedObject)
    (traffic_light_bbox : Option BBox) (stop_line_y : ℤ)
    (helmet_detections : List HelmetDetection) (cfg : Config)
    (frame_time now : ℚ) (est : SpeedEstimatorState)
    (lane_lines : List ((ℤ × ℤ) × (ℤ × ℤ))) (rand : ℕ → ℚ) (k : ℕ) :
    ViolationDetector.detect_signal_jump vehicle_tracks traffic_light_bbox
        stop_line_y now rand k
      = ViolationDetector.detect_signal_jump vehicle_tracks traffic_light_bbox
        stop_line_y now rand k ∧
    ViolationDetector.detect_helmetless_riding rider_tracks helmet_detections
        now rand k
      = ViolationDetector.detect_helmetless_riding rider_tracks
        helmet_detections now rand k ∧
    ViolationDetector.detect_overspeeding cfg vehicle_tracks frame_time est
        now
      = ViolationDetector.detect_overspeeding cfg vehicle_tracks frame_time
        est now ∧
    ViolationDetector.detect_wrong_lane vehicle_tracks lane_lines now
      = ViolationDetector.detect_wrong_lane vehicle_tracks lane_lines now ∧
    ViolationDetector.detect_triple_riding cfg vehicle_tracks rider_tracks now
      = ViolationDetector.detect_triple_riding cfg vehicle_tracks rider_tracks
        now :=
  ⟨rfl, rfl, rfl, rfl, rfl⟩
